import Mathlib

/-!
Verification of the request-gateway core of the `twelvedata` pass-through API
(`main.py`): the quota-tracking middleware `track_requests`, the indicator
whitelist gate of `get_technical_indicator`, and the outbound dispatcher
`fetch_from_twelvedata` (credential injection and upstream-status translation).

Conventions of the embedding:
- Timestamps (`time.time()`) are modelled as integers; all the properties of
  interest are stated at whole-second granularity.  The two `time.time()` reads
  inside the middleware's reset branch are modelled as a single instant `now`.
- Python dicts of query parameters are modelled as association lists with
  Python's assignment semantics (overwrite in place if the key exists, append
  otherwise); lookup is by first occurrence, which agrees with Python since
  keys are unique under that discipline.
- The result of `response.json()` is carried as an `Option Json` field of the
  modelled upstream response: `some v` when the body text parses as the JSON
  value `v`, `none` when parsing raises.
-/

/- ----------------------------------------------------------------
   Quota tracker (middleware `track_requests`, main.py lines 42-68)
   ---------------------------------------------------------------- -/

/-- The mutable process-wide quota state: `request_count` and `last_reset`. -/
structure QuotaState where
  count : Nat
  lastReset : Int
deriving DecidableEq

/-- Outcome of the middleware for one request: either the request is passed on
to `call_next` (accepted / "Admitted"), or the middleware short-circuits with a
local JSON error response (rejected) and the rest of the stack -- including any
upstream call -- never runs for that request. -/
inductive Admission where
  | accepted
  | rejected (status : Nat) (detail : String)
deriving DecidableEq

/-- `REQUEST_LIMIT = 750` (main.py line 45). -/
def REQUEST_LIMIT : Nat := 750

/-- Python's `s.startswith(p)` for a single prefix. -/
def startswith (s p : String) : Bool := List.isPrefixOf p.data s.data

/-- The tuple passed to `request.url.path.startswith` in the middleware
(main.py line 57), in source order.  Note the final `"/"` entry. -/
def excludedPathTuple : List String :=
  ["/docs", "/openapi.json", "/redoc", "/favicon.ico", "/"]

/-- Python's `path.startswith(tuple)`: true iff some member of the tuple is a
prefix of `path`. -/
def pathIsExcluded (path : String) : Bool :=
  excludedPathTuple.any (fun p => startswith path p)

/-- One step of the middleware `track_requests` (main.py lines 47-68), with the
request limit as a parameter so that the spec's "ceiling set to 2" test
configuration is expressible; the deployed configuration is
`track_requests REQUEST_LIMIT`.
1. if `now - last_reset > 86400`, reset the counter and the window start;
2. if the path does not start with any member of `excludedPathTuple`,
   increment the counter and, if it now exceeds the limit, return the local
   429 response without invoking `call_next`;
3. otherwise pass the request on (`call_next`). -/
def track_requests (limit : Nat) (s : QuotaState) (now : Int) (path : String) :
    QuotaState × Admission :=
  let s1 := if now - s.lastReset > 86400 then { count := 0, lastReset := now } else s
  if ! pathIsExcluded path then
    let s2 : QuotaState := { s1 with count := s1.count + 1 }
    if s2.count > limit then
      (s2, Admission.rejected 429 "Daily request limit reached. Please try again tomorrow.")
    else
      (s2, Admission.accepted)
  else
    (s1, Admission.accepted)

/-- The quota state after a sequence of requests, each given as a pair
`(arrival time, path)`. -/
def track_requests_run (limit : Nat) (s : QuotaState) (reqs : List (Int × String)) :
    QuotaState :=
  reqs.foldl (fun st r => (track_requests limit st r.1 r.2).1) s

/-- Follows the spec's words (not the source): the exempt set named by the
spec, "health/root, documentation, favicon" -- the root route itself plus the
documentation and favicon path families.  Used to compare the spec's notion of
"non-exempt request" with the source's `excludedPathTuple` check. -/
def specExemptPath (path : String) : Bool :=
  (path == "/") || startswith path "/docs" || startswith path "/openapi.json" ||
  startswith path "/redoc" || startswith path "/favicon.ico"

/- ----------------------------------------------------------------
   Indicator registry (main.py lines 32-40, 393-398)
   ---------------------------------------------------------------- -/

/-- `TECHNICAL_INDICATORS` (main.py lines 32-40), verbatim and in source
order. -/
def TECHNICAL_INDICATORS : List String := [
  "ad", "adosc", "adx", "adxr", "ao", "apo", "aroon", "aroonosc", "atr", "avgprice", "bbands",
  "bop", "cci", "cmo", "cvi", "dema", "di", "dm", "dmi", "dpo", "dx", "ema", "eom", "fisher",
  "fosc", "hma", "ichimoku", "imi", "kama", "kvo", "linearreg", "ma", "macd", "macdext", "mama",
  "mfi", "midpoint", "midprice", "mom", "natr", "obv", "percent_b", "ppo", "roc", "rocp", "rocr",
  "rsi", "sar", "sma", "smma", "srsi", "stddev", "stoch", "stochrsi", "supertrend", "t3", "tema",
  "trange", "trima", "trix", "tsf", "typprice", "ultosc", "vbm", "vi", "vidya", "volatility",
  "vosc", "vwap", "vwma", "wclprice", "wilders", "willr", "wma", "zlema"]

/-- ASCII lower-casing of one character, as Python's `str.lower` acts on the
ASCII range (every registry entry and every input of interest is ASCII). -/
def lowerChar (c : Char) : Char :=
  if c.toNat ≥ 65 ∧ c.toNat ≤ 90 then Char.ofNat (c.toNat + 32) else c

/-- Python's `s.lower()` restricted to ASCII strings. -/
def lowerStr (s : String) : String := ⟨s.data.map lowerChar⟩

/-- The indicator gate of main.py line 394: `indicator.lower() in
TECHNICAL_INDICATORS` (the source tests the negation and raises). -/
def isSupported (name : String) : Bool :=
  TECHNICAL_INDICATORS.contains (lowerStr name)

/-- Python's `", ".join(l)`. -/
def joinComma : List String → String
  | [] => ""
  | [x] => x
  | x :: y :: xs => x ++ ", " ++ joinComma (y :: xs)

/-- The detail string of the 400 raised for an unsupported indicator
(main.py lines 395-398). -/
def unsupportedIndicatorDetail (indicator : String) : String :=
  "Unsupported indicator: " ++ indicator ++ ". Supported indicators: " ++
    joinComma TECHNICAL_INDICATORS

/- ----------------------------------------------------------------
   Query-parameter dictionaries
   ---------------------------------------------------------------- -/

/-- A query-parameter value: the handlers put strings and integers into the
outbound parameter dict. -/
inductive Val where
  | str (s : String)
  | int (n : Int)
deriving DecidableEq

/-- Python dict assignment `d[k] = v`: overwrite in place when the key is
present, append otherwise. -/
def dictSet (d : List (String × Val)) (k : String) (v : Val) : List (String × Val) :=
  match d with
  | [] => [(k, v)]
  | (k0, v0) :: rest => if k0 = k then (k0, v) :: rest else (k0, v0) :: dictSet rest k v

/-- Python dict lookup `d[k]` / `d.get(k)` (first occurrence; keys are unique
under `dictSet`). -/
def dictLookup (d : List (String × Val)) (k : String) : Option Val :=
  match d with
  | [] => none
  | (k0, v0) :: rest => if k0 = k then some v0 else dictLookup rest k

/- ----------------------------------------------------------------
   Upstream dispatcher: parameter assembly (main.py lines 83-90)
   ---------------------------------------------------------------- -/

/-- The parameter assembly of `fetch_from_twelvedata` (main.py lines 86-90):
`if params is None: params = dict()` followed by `params["apikey"] = API_KEY`.
The credential is a parameter of the model (the source resolves it once at
startup from the environment, with a hardcoded fallback). -/
def fetch_from_twelvedata_params (apiKey : String)
    (params : Option (List (String × Val))) : List (String × Val) :=
  dictSet (params.getD []) "apikey" (Val.str apiKey)

/- ----------------------------------------------------------------
   Indicator route handler (main.py lines 376-420)
   ---------------------------------------------------------------- -/

/-- What a route handler does with a request after the middleware: either it
raises an `HTTPException(status, detail)` locally, or it reaches
`fetch_from_twelvedata(endpoint, params)` with the assembled parameters. -/
inductive HandlerStep where
  | httpError (status : Nat) (detail : String)
  | dispatch (endpoint : String) (params : List (String × Val))
deriving DecidableEq

/-- Python truthiness of an `Optional[int]`: `None` and `0` are falsy. -/
def truthyOptInt : Option Int → Bool
  | none => false
  | some n => n != 0

/-- Python truthiness of an `Optional[str]`: `None` and `""` are falsy. -/
def truthyOptStr : Option String → Bool
  | none => false
  | some s => s != ""

/-- The parameter assembly of `get_technical_indicator` (main.py lines
400-417): the six core parameters, then each optional tuning parameter added
only when its value is truthy (`if fast_period:` etc.). -/
def indicatorParams (symbol interval : String) (outputsize time_period : Int)
    (series_type : String) (fast_period slow_period signal_period : Option Int)
    (ma_type : Option String) (fmt : String) : List (String × Val) :=
  let params : List (String × Val) :=
    [("symbol", Val.str symbol), ("interval", Val.str interval),
     ("outputsize", Val.int outputsize), ("time_period", Val.int time_period),
     ("series_type", Val.str series_type), ("format", Val.str fmt)]
  let params := if truthyOptInt fast_period then
      dictSet params "fast_period" (Val.int (fast_period.getD 0)) else params
  let params := if truthyOptInt slow_period then
      dictSet params "slow_period" (Val.int (slow_period.getD 0)) else params
  let params := if truthyOptInt signal_period then
      dictSet params "signal_period" (Val.int (signal_period.getD 0)) else params
  if truthyOptStr ma_type then
      dictSet params "ma_type" (Val.str (ma_type.getD "")) else params

/-- The handler `get_technical_indicator` (main.py lines 376-420): gate on the
indicator whitelist (raising a 400 before any dispatch on an unsupported
name), otherwise assemble the parameters and dispatch to the indicator name as
endpoint. -/
def get_technical_indicator (indicator symbol interval : String)
    (outputsize time_period : Int) (series_type : String)
    (fast_period slow_period signal_period : Option Int)
    (ma_type : Option String) (fmt : String) : HandlerStep :=
  if ! isSupported indicator then
    HandlerStep.httpError 400 (unsupportedIndicatorDetail indicator)
  else
    HandlerStep.dispatch indicator
      (indicatorParams symbol interval outputsize time_period series_type
        fast_period slow_period signal_period ma_type fmt)

/- ----------------------------------------------------------------
   Upstream dispatcher: response translation (main.py lines 95-123)
   ---------------------------------------------------------------- -/

/-- A parsed JSON value, as produced by `response.json()`.  Numbers are
modelled as integers (no claim involves a non-integer payload). -/
inductive Json where
  | str (s : String)
  | num (n : Int)
  | bool (b : Bool)
  | null
  | arr (elems : List Json)
  | obj (fields : List (String × Json))

/-- Python's `isinstance(x, dict)` on a parsed JSON value. -/
def Json.isDict : Json → Bool
  | Json.obj _ => true
  | _ => false

/-- Lookup of a key in a parsed JSON object (`"message" in d` / `d["message"]`;
parsed Python dicts have unique keys). -/
def jsonLookup (fields : List (String × Json)) (k : String) : Option Json :=
  match fields with
  | [] => none
  | (k0, v0) :: rest => if k0 = k then some v0 else jsonLookup rest k

mutual

/-- Python's `repr` of a parsed-JSON value, used by `str` on containers.
String escaping inside `repr` is not modelled (no claim exercises it). -/
def pyRepr : Json → String
  | Json.str s => "\x27" ++ s ++ "\x27"
  | Json.num n => toString n
  | Json.bool b => if b then "True" else "False"
  | Json.null => "None"
  | Json.arr l => "[" ++ pyReprList l ++ "]"
  | Json.obj l => "\x7b" ++ pyReprFields l ++ "\x7d"

/-- Comma-joined `repr`s of the elements of a parsed JSON array. -/
def pyReprList : List Json → String
  | [] => ""
  | [x] => pyRepr x
  | x :: y :: xs => pyRepr x ++ ", " ++ pyReprList (y :: xs)

/-- Comma-joined `repr`s of the fields of a parsed JSON object. -/
def pyReprFields : List (String × Json) → String
  | [] => ""
  | [(k, v)] => "\x27" ++ k ++ "\x27: " ++ pyRepr v
  | (k, v) :: y :: xs => "\x27" ++ k ++ "\x27: " ++ pyRepr v ++ ", " ++ pyReprFields (y :: xs)

end

/-- Python's `str()` of a parsed-JSON value, the rendering an f-string applies
to `error_data["message"]`: a `str` value is used verbatim, anything else is
rendered by `repr`. -/
def pyStr : Json → String
  | Json.str s => s
  | j => pyRepr j

/-- An upstream HTTP response as `fetch_from_twelvedata` observes it:
`response.status_code`, `response.text`, and the result of `response.json()`
(`some v` when `text` parses as the JSON value `v`, `none` when parsing
raises). -/
structure UpstreamResponse where
  status : Nat
  text : String
  json : Option Json

/-- The local outcome of `fetch_from_twelvedata`: the parsed 200 body returned
to the caller, or a raised `HTTPException(status, detail)`. -/
inductive FetchOutcome where
  | success (body : Json)
  | httpError (status : Nat) (detail : String)

/-- Python's `text[:200]` (slicing counts characters). -/
def takeChars (n : Nat) (s : String) : String := ⟨s.data.take n⟩

/-- Placeholder for the textual rendering of the `JSONDecodeError` raised by
`response.json()` on an unparseable 200 body.  That text is produced inside
the `requests` library, not in this repository's source, and no claim depends
on it; only the 500 status and the fixed prefix of that branch are used. -/
def jsonDecodeErrorText (text : String) : String := text

/-- The status-to-outcome translation of `fetch_from_twelvedata` (main.py
lines 100-123) applied to a received upstream response:
- 200: return the parsed body (an unparseable 200 body makes
  `response.json()` raise, which surfaces as the 500 connection-error branch);
- 400: `error_message` starts as `"Bad Request"`; if the body parses and the
  result is a dict containing `"message"`, that value (as rendered by an
  f-string) replaces it; if parsing raises, the raw body text replaces it;
  the detail is the message behind a fixed prefix;
- 401: a fixed local detail, independent of the upstream body;
- 429: a fixed local detail;
- anything else: the body text truncated to 200 characters behind a fixed
  prefix, under the upstream status code. -/
def fetch_from_twelvedata_translate (resp : UpstreamResponse) : FetchOutcome :=
  if resp.status = 200 then
    match resp.json with
    | some body => FetchOutcome.success body
    | none => FetchOutcome.httpError 500
        ("❌ Connection Error: " ++ jsonDecodeErrorText resp.text)
  else if resp.status = 400 then
    let errorMessage : String :=
      match resp.json with
      | none => resp.text
      | some errorData =>
        match errorData with
        | Json.obj fields =>
          match jsonLookup fields "message" with
          | some v => pyStr v
          | none => "Bad Request"
        | _ => "Bad Request"
    FetchOutcome.httpError 400 ("❌ Bad Request: " ++ errorMessage)
  else if resp.status = 401 then
    FetchOutcome.httpError 401 "❌ Invalid API key or unauthorized access"
  else if resp.status = 429 then
    FetchOutcome.httpError 429
      "❌ Rate limit exceeded. Please try again later. Free plan limited to 800 requests per day."
  else
    FetchOutcome.httpError resp.status ("⚠ Unexpected Error: " ++ takeChars 200 resp.text)

/- ----------------------------------------------------------------
   Helper lemmas
   ---------------------------------------------------------------- -/

/-- A substring of `r` is a substring of `pre ++ r`. -/
theorem substring_append_left {l r : List Char} (pre : List Char) (h : l <:+: r) :
    l <:+: pre ++ r := by
  obtain ⟨u, t, hut⟩ := h
  exact ⟨pre ++ u, t, by rw [← hut]; simp [List.append_assoc]⟩

/-- Every member of a list of strings occurs as a substring of their
comma-join. -/
theorem mem_substring_joinComma {s : String} {l : List String} (h : s ∈ l) :
    s.data <:+: (joinComma l).data := by
  induction l with
  | nil => cases h
  | cons x xs ih =>
    cases xs with
    | nil =>
      have hx : s = x := by simpa using h
      subst hx
      exact ⟨[], [], by simp [joinComma]⟩
    | cons y ys =>
      rcases List.mem_cons.mp h with hx | hmem
      · subst hx
        refine ⟨[], (", " ++ joinComma (y :: ys)).data, ?_⟩
        simp [joinComma, String.data_append, List.append_assoc]
      · have hr := ih hmem
        have hd : (joinComma (x :: y :: ys)).data
            = (x ++ ", ").data ++ (joinComma (y :: ys)).data := by
          simp [joinComma, String.data_append, List.append_assoc]
        rw [hd]
        exact substring_append_left _ hr

/-- Every supported indicator name occurs in the unsupported-indicator error
detail. -/
theorem mem_substring_unsupportedDetail (indicator : String) {s : String}
    (h : s ∈ TECHNICAL_INDICATORS) :
    s.data <:+: (unsupportedIndicatorDetail indicator).data := by
  unfold unsupportedIndicatorDetail
  rw [String.data_append]
  exact substring_append_left _ (mem_substring_joinComma h)

/-- Looking up the key just assigned returns the assigned value, for any prior
contents of the dict. -/
theorem dictLookup_dictSet (d : List (String × Val)) (k : String) (v : Val) :
    dictLookup (dictSet d k v) k = some v := by
  induction d with
  | nil => simp [dictSet, dictLookup]
  | cons p rest ih =>
    obtain ⟨k0, v0⟩ := p
    by_cases hk : k0 = k
    · subst hk; simp [dictSet, dictLookup]
    · simp [dictSet, dictLookup, hk, ih]

/-- Every spec-exempt path is matched by the source's excluded-prefix tuple. -/
theorem pathIsExcluded_of_specExemptPath {path : String}
    (h : specExemptPath path = true) : pathIsExcluded path = true := by
  unfold specExemptPath at h
  unfold pathIsExcluded excludedPathTuple
  simp only [Bool.or_eq_true, beq_iff_eq] at h
  simp only [List.any_cons, List.any_nil, Bool.or_eq_true, Bool.or_false]
  rcases h with ((((h | h) | h) | h) | h)
  · subst h; right; right; right; right; decide
  · exact Or.inl h
  · exact Or.inr (Or.inl h)
  · exact Or.inr (Or.inr (Or.inl h))
  · exact Or.inr (Or.inr (Or.inr (Or.inl h)))

/-- A spec-exempt request inside the current window leaves the quota state
untouched and is passed on. -/
theorem track_requests_exempt {limit : Nat} {s : QuotaState} {now : Int}
    {path : String} (hex : specExemptPath path = true)
    (hw : now - s.lastReset ≤ 86400) :
    track_requests limit s now path = (s, Admission.accepted) := by
  have h1 : ¬ (now - s.lastReset > 86400) := by omega
  simp [track_requests, h1, pathIsExcluded_of_specExemptPath hex]

/- ----------------------------------------------------------------
   Claims
   ---------------------------------------------------------------- -/

/-- C1: the claim says every request whose path is outside the exempt set
(health/root, documentation, favicon) increments the quota count by exactly
one, so that after one admitted non-exempt request the count is 1.  The code
refutes this: the exclusion tuple of main.py line 57 ends in `"/"`, which is a
prefix of every HTTP path, so `"/price"` -- not exempt under the spec's words
-- is never counted: starting from a fresh state, the request is passed on and
the count stays 0. -/
theorem C1_nonexempt_request_not_counted :
    specExemptPath "/price" = false ∧
    track_requests REQUEST_LIMIT ⟨0, 0⟩ 1 "/price" = (⟨0, 0⟩, Admission.accepted) := by
  decide

/-- C2: the claim says a request to the indicator route with an unsupported
indicator name still increments the quota counter (the inbound gate charges
the attempt).  The code refutes this: `"/indicators/not_a_real_indicator"`
starts with `"/"`, a member of the exclusion tuple of main.py line 57, so the
middleware never increments for it -- the count stays 0 even though the
indicator is unsupported and the path is non-exempt under the spec's words. -/
theorem C2_unsupported_indicator_request_not_counted :
    isSupported "not_a_real_indicator" = false ∧
    specExemptPath "/indicators/not_a_real_indicator" = false ∧
    track_requests REQUEST_LIMIT ⟨0, 0⟩ 1 "/indicators/not_a_real_indicator"
      = (⟨0, 0⟩, Admission.accepted) := by
  decide

/-- C3: the claim's test scenario says that with the ceiling set to 2, the
third non-exempt request is rejected with a 429 and no upstream call.  The
code refutes the scenario: with limit 2, two requests to `"/price"` leave the
count at 0 (the `"/"` entry of the exclusion tuple matches every path), and
the third request is again passed on to the rest of the stack rather than
rejected. -/
theorem C3_third_request_not_rejected :
    track_requests_run 2 ⟨0, 0⟩ [(1, "/price"), (2, "/price")] = ⟨0, 0⟩ ∧
    track_requests 2 ⟨0, 0⟩ 3 "/price" = (⟨0, 0⟩, Admission.accepted) := by
  decide

/-- C4 counterexample: the claim says the window resets when
`now - windowStart ≥ 86400`.  The source tests `time.time() - last_reset >
86400` (main.py line 52), strictly: at exactly `now - windowStart = 86400`
with a pre-reset count of 5, the count is not reset to 0. -/
theorem C4_no_reset_at_exact_boundary :
    ((86400 : Int) - 0 ≥ 86400) ∧
    (track_requests REQUEST_LIMIT ⟨5, 0⟩ 86400 "/").1 = ⟨5, 0⟩ ∧
    ¬ ((track_requests REQUEST_LIMIT ⟨5, 0⟩ 86400 "/").1.count = 0) := by
  decide

/-- C4 (amended): on every admission check, if `now - windowStart > 86400`
(strictly), the count is reset to 0 and the window start is advanced to `now`,
regardless of whether the current request is counted; such a request observes
a count of at most 1 after being processed, regardless of the pre-reset
count. -/
theorem C4_window_reset_strict (limit : Nat) (s : QuotaState) (now : Int)
    (path : String) (h : now - s.lastReset > 86400) :
    (track_requests limit s now path).1.lastReset = now ∧
    (track_requests limit s now path).1.count ≤ 1 := by
  unfold track_requests
  simp only [if_pos h]
  cases hex : pathIsExcluded path
  · simp only [hex, Bool.not_false, if_true]
    split <;> simp
  · simp [hex]

/-- C4 witness: the amended reset property at a concrete input, one second
past the strict boundary with a pre-reset count of 5. -/
theorem C4_window_reset_strict_witness :
    (track_requests 750 ⟨5, 0⟩ 86401 "/price").1.lastReset = 86401 ∧
    (track_requests 750 ⟨5, 0⟩ 86401 "/price").1.count ≤ 1 :=
  C4_window_reset_strict 750 ⟨5, 0⟩ 86401 "/price" (by decide)

/-- C5 counterexample: the claim says an exempt-path request leaves the quota
count unchanged.  The 24-hour reset of main.py lines 52-54 runs on every
request, exempt or not: a request to the exempt root path arriving after the
window has expired changes the count from 5 to 0. -/
theorem C5_exempt_request_reset_changes_count :
    specExemptPath "/" = true ∧
    (track_requests REQUEST_LIMIT ⟨5, 0⟩ 86401 "/").1.count = 0 ∧
    ¬ ((track_requests REQUEST_LIMIT ⟨5, 0⟩ 86401 "/").1.count = 5) := by
  decide

/-- C5 (amended): an exempt-path request is always passed on and never
increments the count, unconditionally: its resulting state is exactly
`⟨0, now⟩` when the 24-hour reset fires (`now - windowStart > 86400`) and
exactly the prior state otherwise -- in particular the count after the
request is never `count + 1`.  Inside the window the quota state is left
entirely unchanged, so any number K of exempt requests within the window
leaves the count unchanged. -/
theorem C5_exempt_requests_frame (limit : Nat) (s : QuotaState) :
    (∀ (now : Int) (path : String), specExemptPath path = true →
        track_requests limit s now path
          = ((if now - s.lastReset > 86400 then ⟨0, now⟩ else s),
             Admission.accepted)) ∧
    (∀ (now : Int) (path : String), specExemptPath path = true →
        now - s.lastReset ≤ 86400 →
        track_requests limit s now path = (s, Admission.accepted)) ∧
    (∀ reqs : List (Int × String),
        (∀ r ∈ reqs, specExemptPath r.2 = true ∧ r.1 - s.lastReset ≤ 86400) →
        track_requests_run limit s reqs = s) := by
  refine ⟨?_, ?_, ?_⟩
  · intro now path hex
    have hexc := pathIsExcluded_of_specExemptPath hex
    by_cases h : now - s.lastReset > 86400
    · simp [track_requests, h, hexc]
    · simp [track_requests, h, hexc]
  · intro now path hex hw
    exact track_requests_exempt hex hw
  · intro reqs
    induction reqs with
    | nil => intro _; rfl
    | cons r t ih =>
      intro hall
      have h1 := hall r (List.mem_cons_self r t)
      have hstep : track_requests limit s r.1 r.2 = (s, Admission.accepted) :=
        track_requests_exempt h1.1 h1.2
      unfold track_requests_run
      simp only [List.foldl_cons, hstep]
      exact ih (fun x hx => hall x (List.mem_cons_of_mem r hx))

/-- C5 witness: the amended frame property at concrete inputs -- an exempt
request that fires the reset is still passed on with the count zeroed rather
than incremented; an exempt request inside the window and a two-request
exempt sequence leave the state `⟨3, 0⟩` untouched. -/
theorem C5_exempt_requests_frame_witness :
    track_requests 750 ⟨5, 0⟩ 86401 "/" = (⟨0, 86401⟩, Admission.accepted) ∧
    track_requests 750 ⟨3, 0⟩ 10 "/docs" = (⟨3, 0⟩, Admission.accepted) ∧
    track_requests_run 750 ⟨3, 0⟩ [(10, "/"), (20, "/favicon.ico")] = ⟨3, 0⟩ := by
  refine ⟨?_, ?_, ?_⟩
  · have h := (C5_exempt_requests_frame 750 ⟨5, 0⟩).1 86401 "/" (by decide)
    simpa using h
  · exact (C5_exempt_requests_frame 750 ⟨3, 0⟩).2.1 10 "/docs" (by decide) (by decide)
  · exact (C5_exempt_requests_frame 750 ⟨3, 0⟩).2.2
      [(10, "/"), (20, "/favicon.ico")] (by decide)

/-- C6: the indicator-support check is case-insensitive membership in the
fixed registry -- `isSupported name` is true iff the lowercased name is in
`TECHNICAL_INDICATORS` -- so "RSI" and "rsi" are both supported and
"not_a_real_indicator" is not; and for every unsupported name the handler
raises a 400 (it never reaches dispatch) whose detail contains every
supported indicator name. -/
theorem C6_indicator_gate :
    (∀ name : String, isSupported name = true ↔
        TECHNICAL_INDICATORS.contains (lowerStr name) = true) ∧
    isSupported "RSI" = true ∧
    isSupported "rsi" = true ∧
    isSupported "not_a_real_indicator" = false ∧
    (∀ (indicator symbol interval : String) (outputsize time_period : Int)
        (series_type : String) (fast_period slow_period signal_period : Option Int)
        (ma_type : Option String) (fmt : String),
      isSupported indicator = false →
      get_technical_indicator indicator symbol interval outputsize time_period
          series_type fast_period slow_period signal_period ma_type fmt
        = HandlerStep.httpError 400 (unsupportedIndicatorDetail indicator) ∧
      (∀ s ∈ TECHNICAL_INDICATORS,
        s.data <:+: (unsupportedIndicatorDetail indicator).data)) := by
  refine ⟨fun name => Iff.rfl, by decide, by decide, by decide, ?_⟩
  intro indicator _ _ _ _ _ _ _ _ _ _ hun
  refine ⟨by simp [get_technical_indicator, hun], ?_⟩
  intro s hs
  exact mem_substring_unsupportedDetail indicator hs

/-- C6 witness: the gate at the concrete unsupported name
"not_a_real_indicator" raises the 400 with the registry-listing detail, and
the supported name "rsi" occurs in that detail. -/
theorem C6_indicator_gate_witness :
    get_technical_indicator "not_a_real_indicator" "AAPL" "1day" 30 14 "close"
        none none none none "JSON"
      = HandlerStep.httpError 400 (unsupportedIndicatorDetail "not_a_real_indicator") ∧
    "rsi".data <:+: (unsupportedIndicatorDetail "not_a_real_indicator").data := by
  have h := C6_indicator_gate.2.2.2.2 "not_a_real_indicator" "AAPL" "1day" 30 14
    "close" none none none none "JSON" (by decide)
  exact ⟨h.1, h.2 "rsi" (by decide)⟩

/-- C7: every outbound parameter mapping built by the dispatcher carries the
configured credential under the fixed key "apikey", for every caller-supplied
parameter set including an absent one, and a caller-supplied value for that
key is overwritten. -/
theorem C7_credential_injection :
    (∀ (apiKey : String) (params : Option (List (String × Val))),
      dictLookup (fetch_from_twelvedata_params apiKey params) "apikey"
        = some (Val.str apiKey)) ∧
    fetch_from_twelvedata_params "realkey" (some [("apikey", Val.str "callerkey")])
      = [("apikey", Val.str "realkey")] ∧
    fetch_from_twelvedata_params "realkey" none = [("apikey", Val.str "realkey")] := by
  refine ⟨?_, by decide, by decide⟩
  intro apiKey params
  exact dictLookup_dictSet _ _ _

/-- C8: every upstream 401 produces the same local outcome -- status 401 with
a fixed local detail -- independently of the upstream body text and of its
parse result, and neither "foo" nor "bar" (the spec's example body fields)
occurs in that fixed detail. -/
theorem C8_unauthorized_fixed_local :
    (∀ (t1 t2 : String) (j1 j2 : Option Json),
      fetch_from_twelvedata_translate ⟨401, t1, j1⟩
        = fetch_from_twelvedata_translate ⟨401, t2, j2⟩) ∧
    (∀ (t : String) (j : Option Json),
      fetch_from_twelvedata_translate ⟨401, t, j⟩
        = FetchOutcome.httpError 401 "❌ Invalid API key or unauthorized access") ∧
    ¬ ("foo".data <:+: ("❌ Invalid API key or unauthorized access" : String).data) ∧
    ¬ ("bar".data <:+: ("❌ Invalid API key or unauthorized access" : String).data) := by
  exact ⟨fun t1 t2 j1 j2 => rfl, fun t j => rfl, by decide, by decide⟩

/-- C9 counterexample: the claim says the 400 message is the `message` field
when present "and otherwise the raw body text".  For a 400 whose body is
valid JSON but not an object containing `message` -- here the array
`[1, 2, 3]` -- the source's `error_message` keeps its initial value
`"Bad Request"` (main.py line 103): the raw body text is used only when JSON
parsing raises. -/
theorem C9_nonobject_body_default_message :
    fetch_from_twelvedata_translate
        ⟨400, "[1, 2, 3]", some (Json.arr [Json.num 1, Json.num 2, Json.num 3])⟩
      = FetchOutcome.httpError 400 ("❌ Bad Request: " ++ "Bad Request") ∧
    ("❌ Bad Request: " ++ "Bad Request" : String) ≠ "❌ Bad Request: " ++ "[1, 2, 3]" := by
  exact ⟨rfl, by decide⟩

/-- C9 (amended): on an upstream 400, the local message is the value of the
`message` field (as rendered by the f-string) when the body parses to a JSON
object containing that key; the raw body text when the body does not parse as
JSON; and the fixed default `"Bad Request"` otherwise (a parsed non-object, or
an object without a `message` key). -/
theorem C9_bad_request_message (t : String) (fields : List (String × Json)) :
    (∀ v : Json, jsonLookup fields "message" = some v →
      fetch_from_twelvedata_translate ⟨400, t, some (Json.obj fields)⟩
        = FetchOutcome.httpError 400 ("❌ Bad Request: " ++ pyStr v)) ∧
    (fetch_from_twelvedata_translate ⟨400, t, none⟩
        = FetchOutcome.httpError 400 ("❌ Bad Request: " ++ t)) ∧
    (jsonLookup fields "message" = none →
      fetch_from_twelvedata_translate ⟨400, t, some (Json.obj fields)⟩
        = FetchOutcome.httpError 400 ("❌ Bad Request: " ++ "Bad Request")) ∧
    (∀ jv : Json, Json.isDict jv = false →
      fetch_from_twelvedata_translate ⟨400, t, some jv⟩
        = FetchOutcome.httpError 400 ("❌ Bad Request: " ++ "Bad Request")) := by
  refine ⟨?_, rfl, ?_, ?_⟩
  · intro v hv
    simp [fetch_from_twelvedata_translate, hv]
  · intro hn
    simp [fetch_from_twelvedata_translate, hn]
  · intro jv hjv
    cases jv with
    | obj fields2 => simp [Json.isDict] at hjv
    | str s => rfl
    | num n => rfl
    | bool b => rfl
    | null => rfl
    | arr l => rfl

/-- C9 witness: the amended 400-message policy at concrete inputs -- an object
body carrying a string `message`, an unparseable body, and a parsed non-object
body. -/
theorem C9_bad_request_message_witness :
    (fetch_from_twelvedata_translate
        ⟨400, "body", some (Json.obj [("message", Json.str "oops")])⟩
      = FetchOutcome.httpError 400 ("❌ Bad Request: " ++ pyStr (Json.str "oops"))) ∧
    (fetch_from_twelvedata_translate ⟨400, "not json", none⟩
      = FetchOutcome.httpError 400 ("❌ Bad Request: " ++ "not json")) ∧
    (fetch_from_twelvedata_translate ⟨400, "[]", some (Json.arr [])⟩
      = FetchOutcome.httpError 400 ("❌ Bad Request: " ++ "Bad Request")) :=
  ⟨(C9_bad_request_message "body" [("message", Json.str "oops")]).1
      (Json.str "oops") rfl,
   (C9_bad_request_message "not json" ([] : List (String × Json))).2.1,
   (C9_bad_request_message "[]" ([] : List (String × Json))).2.2.2
      (Json.arr []) rfl⟩

/-- C10: for every indicator-route request that reaches parameter assembly,
each optional tuning parameter appears in the outbound params iff it was
supplied with a truthy value -- `fast_period`, `slow_period`, `signal_period`
supplied as 0 (or absent) and `ma_type` supplied as "" (or absent) are
omitted; truthy values are forwarded unchanged. -/
theorem C10_falsy_optionals_omitted
    (indicator symbol interval : String) (outputsize time_period : Int)
    (series_type : String) (fast_period slow_period signal_period : Option Int)
    (ma_type : Option String) (fmt : String)
    (h : isSupported indicator = true) :
    get_technical_indicator indicator symbol interval outputsize time_period
        series_type fast_period slow_period signal_period ma_type fmt
      = HandlerStep.dispatch indicator
          (indicatorParams symbol interval outputsize time_period series_type
            fast_period slow_period signal_period ma_type fmt) ∧
    dictLookup (indicatorParams symbol interval outputsize time_period series_type
        fast_period slow_period signal_period ma_type fmt) "fast_period"
      = (if truthyOptInt fast_period then some (Val.int (fast_period.getD 0)) else none) ∧
    dictLookup (indicatorParams symbol interval outputsize time_period series_type
        fast_period slow_period signal_period ma_type fmt) "slow_period"
      = (if truthyOptInt slow_period then some (Val.int (slow_period.getD 0)) else none) ∧
    dictLookup (indicatorParams symbol interval outputsize time_period series_type
        fast_period slow_period signal_period ma_type fmt) "signal_period"
      = (if truthyOptInt signal_period then some (Val.int (signal_period.getD 0)) else none) ∧
    dictLookup (indicatorParams symbol interval outputsize time_period series_type
        fast_period slow_period signal_period ma_type fmt) "ma_type"
      = (if truthyOptStr ma_type then some (Val.str (ma_type.getD "")) else none) := by
  refine ⟨by simp [get_technical_indicator, h], ?_, ?_, ?_, ?_⟩ <;>
    (cases hc1 : truthyOptInt fast_period <;>
     cases hc2 : truthyOptInt slow_period <;>
     cases hc3 : truthyOptInt signal_period <;>
     cases hc4 : truthyOptStr ma_type <;>
       simp [indicatorParams, hc1, hc2, hc3, hc4, dictSet, dictLookup])

/-- C10 witness: the optional-parameter policy at a concrete request --
`fast_period` supplied as 0 and `ma_type` supplied as "" are omitted,
`slow_period` supplied as 12 is forwarded, `signal_period` absent is
omitted. -/
theorem C10_falsy_optionals_omitted_witness :
    get_technical_indicator "macd" "AAPL" "1day" 30 14 "close"
        (some 0) (some 12) none (some "") "JSON"
      = HandlerStep.dispatch "macd"
          (indicatorParams "AAPL" "1day" 30 14 "close"
            (some 0) (some 12) none (some "") "JSON") ∧
    dictLookup (indicatorParams "AAPL" "1day" 30 14 "close"
        (some 0) (some 12) none (some "") "JSON") "fast_period"
      = (if truthyOptInt (some 0) then some (Val.int ((some (0 : Int)).getD 0)) else none) ∧
    dictLookup (indicatorParams "AAPL" "1day" 30 14 "close"
        (some 0) (some 12) none (some "") "JSON") "slow_period"
      = (if truthyOptInt (some 12) then some (Val.int ((some (12 : Int)).getD 0)) else none) ∧
    dictLookup (indicatorParams "AAPL" "1day" 30 14 "close"
        (some 0) (some 12) none (some "") "JSON") "signal_period"
      = (if truthyOptInt none then some (Val.int ((none : Option Int).getD 0)) else none) ∧
    dictLookup (indicatorParams "AAPL" "1day" 30 14 "close"
        (some 0) (some 12) none (some "") "JSON") "ma_type"
      = (if truthyOptStr (some "") then some (Val.str ((some "").getD "")) else none) :=
  C10_falsy_optionals_omitted "macd" "AAPL" "1day" 30 14 "close"
    (some 0) (some 12) none (some "") "JSON" (by decide)
